import Mathlib

/-!
Verification of the tep-demo fault-monitoring pipeline.

Shallow embedding of the components described by the specification:
the Partitioner (`src/training/loader.py`), the two-stage Cascade
Policy (`src/api/main.py`, `src/training/trainer.py`), the Streaming
Monitor (`src/dashboard/app.py`), the Metrics Aggregator
(`src/evaluation/evaluator.py`) and the preprocessing window
(`src/preprocessing/processor.py`).

Floating-point channel values never enter any control decision of the
verified claims, so numeric cell values are embedded as integers and
fractions (`test_size`) as rationals.  Filesystem writes are embedded
as explicit action traces.
-/

set_option maxHeartbeats 2000000
set_option maxRecDepth 8000

namespace TepDemo

/-! ## Partitioner — `src/training/loader.py` (class DataLoader) -/

/-- Row of the merged TEP dataframe: the identity/metadata columns that the
loader reads (`faultNumber`, `simulationRun`) plus the remaining columns
(`sample` and the 52 sensor channels), abstracted as `rest : α` since the
loader never inspects them. -/
structure TepRecord (α : Type) where
  faultNumber : Int
  simulationRun : Int
  rest : α
deriving DecidableEq, Repr

/-- Composite key computed by `load_data` line 63:
`df[faultNumber].astype(str) + underscore + df[simulationRun].astype(str)`. -/
def runId {α : Type} (r : TepRecord α) : String :=
  toString r.faultNumber ++ "_" ++ toString r.simulationRun

/-- First-occurrence deduplication, the semantics of pandas
`Series.unique()` (order of first appearance), with an explicit
seen-accumulator. -/
def uniqueFirstAux {α : Type} [DecidableEq α] (seen : List α) : List α → List α
  | [] => []
  | a :: as =>
    if a ∈ seen then uniqueFirstAux seen as
    else a :: uniqueFirstAux (a :: seen) as

/-- Semantics of `df[unique_run_id].unique()`. -/
def uniqueFirst {α : Type} [DecidableEq α] (l : List α) : List α :=
  uniqueFirstAux [] l

/-- Python `int()` applied to a real number: truncation toward zero
(`Int.tdiv` on the reduced numerator and denominator is T-division). -/
def pyInt (q : ℚ) : Int :=
  q.num.tdiv (q.den : Int)

/-- Numpy slice `arr[:k]` for a possibly negative Python int `k`. -/
def pySlice {α : Type} (l : List α) (k : Int) : List α :=
  if 0 ≤ k then l.take k.toNat else l.take ((l.length : Int) + k).toNat

/-- Run ids assigned to the train side by `split_by_run` lines 83–86:
`unique_runs = shuffle(df[unique_run_id].unique(), random_state=RANDOM_SEED)`,
`split_idx = int(len(unique_runs) * (1 - test_size))`,
`train_runs = unique_runs[:split_idx]`.
The seeded deterministic shuffle is abstracted as the function argument
`sh` (the sklearn `shuffle` with a fixed `random_state` is one such
function); every theorem below holds for an arbitrary `sh`. -/
def trainRunsOf {α : Type} (sh : List String → List String)
    (df : List (TepRecord α)) (test_size : ℚ) : List String :=
  let uniqueRuns := sh (uniqueFirst (df.map runId))
  pySlice uniqueRuns (pyInt ((uniqueRuns.length : ℚ) * (1 - test_size)))

/-- DataLoader.split_by_run lines 83–92 (the row partition, before
`_finalize_split` drops the metadata columns):
`df_train = df[df[unique_run_id].isin(train_runs)]`,
`df_test = df[~df[unique_run_id].isin(train_runs)]`.
The code performs no validation and raises nothing: it is a total
function of its input. -/
def split_by_run {α : Type} (sh : List String → List String)
    (df : List (TepRecord α)) (test_size : ℚ) :
    List (TepRecord α) × List (TepRecord α) :=
  let trainRuns := trainRunsOf sh df test_size
  (df.filter (fun r => decide (runId r ∈ trainRuns)),
   df.filter (fun r => decide (runId r ∉ trainRuns)))

/-- DataLoader._finalize_split lines 94–108: drops the metadata columns,
returning the feature payload and the `faultNumber` label of each row. -/
def finalize_split {α : Type} (df : List (TepRecord α)) : List α × List Int :=
  (df.map TepRecord.rest, df.map TepRecord.faultNumber)

/-- Insertion into an ascending duplicate-free list of integers. -/
def insertSorted (a : Int) : List Int → List Int
  | [] => [a]
  | b :: bs =>
    if a < b then a :: b :: bs
    else if a = b then b :: bs
    else b :: insertSorted a bs

/-- Semantics of `np.unique(x)`: the distinct values of `x` in ascending
order. -/
def sortedUnique (l : List Int) : List Int :=
  l.foldr insertSorted []

/-- Values of `simulationRun` among the rows of class `c`, in row order. -/
def runsOfClass {α : Type} (df : List (TepRecord α)) (c : Int) : List Int :=
  (df.filter (fun r => decide (r.faultNumber = c))).map TepRecord.simulationRun

/-- DataLoader._subsample_by_run lines 110–124:
`df.groupby(faultNumber)[simulationRun].transform(lambda x: x.isin(np.unique(x)[:n_simulations]))`
then `df[mask]`.  A row survives iff its `simulationRun` is among the
first `n` entries of the **sorted** distinct run ids of its own class. -/
def subsample_by_run {α : Type} (df : List (TepRecord α)) (n : Nat) :
    List (TepRecord α) :=
  df.filter (fun r =>
    decide (r.simulationRun ∈ (sortedUnique (runsOfClass df r.faultNumber)).take n))

/-- Modelled from the spec: the downsample operation of §4.1 selects up to
`quotaPerClass` distinct run ids per class with a "deterministic
tie-break: first-encountered order for a fixed input ordering".  This
definition follows those words (first-encountered order) and is compared
against `subsample_by_run`, which the source implements with
`np.unique` (ascending sorted order) instead. -/
def downsample_spec_first_encountered {α : Type} (df : List (TepRecord α))
    (n : Nat) : List (TepRecord α) :=
  df.filter (fun r =>
    decide (r.simulationRun ∈ (uniqueFirst (runsOfClass df r.faultNumber)).take n))

/-! ## Cascade Policy — `src/api/main.py` (endpoint `predict`) -/

/-- Trained channel order enforced at line 85:
the list xmeas_1..xmeas_41 followed by xmv_1..xmv_11 (main.py line 85). -/
def sensorCols : List String :=
  ((List.range 41).map (fun i => "xmeas_" ++ toString (i + 1))) ++
    ((List.range 11).map (fun i => "xmv_" ++ toString (i + 1)))

/-- First-match lookup of a channel name in the request payload (the
payload `sensors` dict, one value per key). -/
def lookupChannel (sensors : List (String × Int)) (c : String) : Option Int :=
  match sensors.find? (fun p => p.1 = c) with
  | some p => some p.2
  | none => none

/-- Errors the endpoint can surface: the generic per-call failure
produced by the `except Exception` handler at lines 108–111 (HTTP 500,
"Internal inference failure"). -/
inductive ApiError where
  | internalFailure
deriving DecidableEq, Repr

/-- Column selection `input_df[sensor_cols]` at line 86: each trained
channel is looked up in the payload; a missing channel raises (pandas
`KeyError`, swallowed into the generic handler), extra payload keys are
silently dropped. -/
def selectCols (sensors : List (String × Int)) :
    List String → Except ApiError (List Int)
  | [] => .ok []
  | c :: cs =>
    match lookupChannel sensors c with
    | none => .error .internalFailure
    | some v =>
      match selectCols sensors cs with
      | .error e => .error e
      | .ok vs => .ok (v :: vs)

/-- Response body of the `/predict` endpoint. -/
structure PredictResponse where
  is_anomaly : Bool
  fault_code : Int
  status : String
deriving DecidableEq, Repr

/-- Endpoint `predict`, lines 79–111, after the model-availability check
(the loaded detector and diagnostician pipelines are the function
arguments; each is an opaque total classifier, `predict` of a fitted
sklearn pipeline).  Stage 1 runs the detector
(`is_anomaly = bool(int(...))`, i.e. anomalous iff the detector output
is nonzero); the response starts as `(is_anomaly, 0, "Normal
Operation")`; stage 2 runs the diagnostician only under
`if is_anomaly`. -/
def predict (det diag : List Int → Int) (sensors : List (String × Int)) :
    Except ApiError PredictResponse :=
  match selectCols sensors sensorCols with
  | .error e => .error e
  | .ok v =>
    let is_anomaly : Bool := det v ≠ 0
    if is_anomaly then
      .ok ⟨true, diag v, "Anomalous state detected: Fault " ++ toString (diag v)⟩
    else
      .ok ⟨false, 0, "Normal Operation"⟩

/-! ## Streaming Monitor — `src/dashboard/app.py` (streaming loop) -/

/-- Operational constants, lines 26–28. -/
def TIME_STEP_MINUTES : Int := 3

def INJECTION_TIME_MIN : Int := 60

def PERSISTENCE_LIMIT : Nat := 2

/-- Input of one iteration: the row `sample` index and the outcome of
`get_api_prediction` — `some (is_anomaly, fault_code)` on HTTP 200,
`none` on timeout/transport failure (lines 287–302 return `None` from
the `except` handler and on any non-200 status). -/
structure StreamSample where
  sampleIdx : Int
  apiResult : Option (Bool × Int)
deriving DecidableEq, Repr

/-- Elapsed time in minutes of a sample: `current_time_minutes =
val_sample * TIME_STEP_MINUTES` (line 356). -/
def sampleTime (x : StreamSample) : Int :=
  x.sampleIdx * TIME_STEP_MINUTES

/-- Detector flag fed to the event logic: `val_detector = 1.0 if
is_anomaly else 0.0`, and `0.0` when the call failed (lines 341–347);
the onset test `val_detector > 0.5` is equivalent to this Boolean. -/
def valDetector (x : StreamSample) : Bool :=
  match x.apiResult with
  | some (a, _) => a
  | none => false

/-- Diagnosis value fed to the event logic: `float(fault_code)` on
success, `0.0` on failure; `round` at line 381 is the identity on these
integer-valued floats. -/
def valDiagnosis (x : StreamSample) : Int :=
  match x.apiResult with
  | some (_, fc) => fc
  | none => 0

/-- Session state mutated by the streaming loop (the
`st.session_state` fields reset by the START button, lines 213–221,
plus the `history_pred` chart buffer).  Chart-only buffers for
pressure/temperature/flow and the synoptic baseline never feed back
into the event logic and are omitted. -/
structure MonitorState where
  anomaly_detected : Bool
  anomaly_time_min : Option Int
  diagnosis_confirmed : Bool
  diagnosis_time_min : Option Int
  diag_consecutive_count : Nat
  history_pred : List Int
deriving DecidableEq, Repr

/-- State after the START button reset. -/
def initMonitorState : MonitorState :=
  ⟨false, none, false, none, 0, []⟩

/-- One iteration of the streaming loop, lines 331–393, restricted to
the event-detection state and the diagnosis history buffer:
the event block (lines 372–387) runs only when
`current_time_minutes > INJECTION_TIME_MIN`; inside it, onset capture
(first `val_detector > 0.5` sets `anomaly_time_min`), then the
persistence counter (`+1` on `round(val_diagnosis) == target`, reset to
0 otherwise, run only while unconfirmed; confirmation fires at
`count >= PERSISTENCE_LIMIT`).  `history_pred` appends `display_pred`
(`0` during the first stabilization hour, else `val_diagnosis`),
line 392. -/
def stepMonitor (target : Int) (s : MonitorState) (x : StreamSample) :
    MonitorState :=
  let t := sampleTime x
  let displayPred : Int := if t < 60 then 0 else valDiagnosis x
  let s1 :=
    if INJECTION_TIME_MIN < t then
      let s' :=
        if ¬ s.anomaly_detected ∧ valDetector x then
          { s with anomaly_detected := true, anomaly_time_min := some t }
        else s
      if ¬ s'.diagnosis_confirmed then
        let c := if valDiagnosis x = target then s'.diag_consecutive_count + 1 else 0
        if PERSISTENCE_LIMIT ≤ c then
          { s' with diag_consecutive_count := c,
                    diagnosis_confirmed := true,
                    diagnosis_time_min := some t }
        else
          { s' with diag_consecutive_count := c }
      else s'
    else s
  { s1 with history_pred := s1.history_pred ++ [displayPred] }

/-- A whole session: the loop folds the step over the ordered sample
stream, starting from the START-button reset state. -/
def runMonitor (target : Int) (s : MonitorState) (xs : List StreamSample) :
    MonitorState :=
  xs.foldl (stepMonitor target) s

/-- A sample qualifies for onset capture iff it is post-injection and
the (successful) inference call flagged an anomaly. -/
def onsetSample (x : StreamSample) : Bool :=
  decide (INJECTION_TIME_MIN < sampleTime x) && valDetector x

/-! ## Artifact writes — `src/training/trainer.py`, `src/evaluation/evaluator.py`

The claims about cached-artifact publication concern which filesystem
paths are written and whether a temporary-location write followed by an
atomic rename is used; the writes are embedded as action traces. -/

/-- Filesystem effects relevant to artifact publication. -/
inductive FsAction where
  | writeFile (path : String)
  | renameFile (src dst : String)
deriving DecidableEq, Repr

/-- Paths from `src/config.py`: `MODEL_DIR / MODEL_DETECT_NAME`,
`MODEL_DIR / MODEL_DIAG_NAME`, and the evaluator path
`MODEL_DIR / "metrics.json"`. -/
def detectorPath : String := "models/detector_pipeline.joblib"

def diagPath : String := "models/diagnostician_pipeline.joblib"

def metricsPath : String := "models/metrics.json"

/-- ModelTrainer._save_model lines 112–124: `joblib.dump(model,
save_path)` — a single direct write to `MODEL_DIR / filename`, the very
path the existence checks inspect; no temporary file, no rename. -/
def save_model_actions (path : String) : List FsAction :=
  [.writeFile path]

/-- ModelTrainer.train_cascaded_models lines 34–97, as the trace of
filesystem writes it performs given which artifacts already exist and
the `force` flag: full skip when both exist and not forced; otherwise
each stage trains and saves unless its own artifact already exists. -/
def train_cascaded_models_actions (detectorExists diagExists force : Bool) :
    List FsAction :=
  if !force && detectorExists && diagExists then []
  else
    (if force || !detectorExists then save_model_actions detectorPath else []) ++
    (if force || !diagExists then save_model_actions diagPath else [])

/-- ModelEvaluator._compute_metrics lines 38–80 as its write trace:
early return with no write when the test set is missing, otherwise a
single direct `open(self.metrics_path, "w")` + `json.dump` to the
cached path itself. -/
def compute_metrics_actions (testSetExists : Bool) : List FsAction :=
  if testSetExists then [.writeFile metricsPath] else []

/-- ModelEvaluator.run_evaluation lines 22–36 as its write trace:
recompute when the metrics artifact is missing or `FORCE_REPROCESS` is
set, else load the cache (no write). -/
def run_evaluation_actions (metricsExists forceMode testSetExists : Bool) :
    List FsAction :=
  if !metricsExists || forceMode then compute_metrics_actions testSetExists
  else []

/-! ## Preprocessing window — `src/preprocessing/processor.py` -/

/-- A dataframe as seen by `crop_and_reindex_samples`: either it has a
`sample` column (each row pairs the sample index with the other
columns, abstracted as `α`) or it does not. -/
inductive Frame (α : Type) where
  | withSample (rows : List (Int × α))
  | plain (rows : List α)
deriving DecidableEq, Repr

/-- DataProcessor.crop_and_reindex_samples lines 32–52:
`if sample not in df.columns: return df`; else keep rows with
`140 <= sample <= 639` and shift `sample` by `-139` (the integrity
check at lines 48–50 only prints a warning). -/
def crop_and_reindex_samples {α : Type} : Frame α → Frame α
  | .plain rows => .plain rows
  | .withSample rows =>
    .withSample (((rows.filter (fun r => decide (140 ≤ r.1) && decide (r.1 ≤ 639))).map
      (fun r => (r.1 - 139, r.2))))

/-! ## Concrete fixtures used by counterexamples and witnesses -/

/-- A dataframe with a single simulation run (fault 0, run 1). -/
def dfSingleRun : List (TepRecord Int) := [⟨0, 1, 0⟩]

/-- A one-class dataframe whose runs are encountered in the order
3, 1, 2. -/
def dfRuns312 : List (TepRecord Int) := [⟨0, 3, 0⟩, ⟨0, 1, 0⟩, ⟨0, 2, 0⟩]

/-- A one-class dataframe with two runs. -/
def dfTwoRuns : List (TepRecord Int) := [⟨0, 1, 0⟩, ⟨0, 2, 0⟩]

/-- A payload carrying exactly the 52 trained channels (value 0). -/
def mockSensors : List (String × Int) := sensorCols.map (fun c => (c, 0))

/-- A payload carrying the 52 trained channels plus one extra key: its
channel set does not match the trained channel order. -/
def mockSensorsExtra : List (String × Int) := mockSensors ++ [("extra_channel", 5)]

/-- Whether an endpoint call succeeded. -/
def exceptOk {ε α : Type} : Except ε α → Bool
  | .ok _ => true
  | .error _ => false

/-- Post-injection stream for the debounce scenario: sample times
63, 66, 69, 72 minutes carrying diagnoses match, no-match, match,
match against target fault 1. -/
def xsDebounce : List StreamSample :=
  [⟨21, some (true, 1)⟩, ⟨22, some (true, 2)⟩, ⟨23, some (true, 1)⟩, ⟨24, some (true, 1)⟩]

/-! ## Helper lemmas -/

theorem map_shift_unshift {α : Type} (l : List (Int × α)) :
    (l.map (fun r => (r.1 - 139, r.2))).map (fun r => (r.1 + 139, r.2)) = l := by
  induction l with
  | nil => rfl
  | cons a as ih =>
    simp only [List.map_cons, ih]
    have : a.1 - 139 + 139 = a.1 := by omega
    simp [this]

theorem crop_rows_bounded {α : Type} (l : List (Int × α)) :
    (((l.filter (fun r => decide (140 ≤ r.1) && decide (r.1 ≤ 639))).map
        (fun r => (r.1 - 139, r.2))).all
      (fun r => decide (1 ≤ r.1) && decide (r.1 ≤ 500))) = true := by
  induction l with
  | nil => rfl
  | cons a as ih =>
    by_cases h1 : 140 ≤ a.1
    · by_cases h2 : a.1 ≤ 639
      · simpa [List.filter_cons, h1, h2, ih] using by omega
      · simp [List.filter_cons, h1, h2, ih]
    · simp [List.filter_cons, h1, ih]

/-- Rows of a frame that has a sample column. -/
def frameRows {α : Type} : Frame α → List (Int × α)
  | .withSample rows => rows
  | .plain _ => []

/-! ## Claims -/

/-- C10: for every dataframe with a sample column,
`crop_and_reindex_samples` returns exactly the rows whose original
sample index lies in [140, 639], each with the sample index decreased
by 139 (hence in [1, 500]) and all other columns unchanged; a
dataframe without a sample column is returned unchanged.  The second
conjunct recovers the filtered input by undoing the shift, so the
output rows are exactly the in-window input rows (same order, same
payload); the third bounds every output index. -/
theorem crop_and_reindex_window {α : Type} (rows : List (Int × α)) (prows : List α) :
    crop_and_reindex_samples (Frame.plain prows) = Frame.plain prows
    ∧ (frameRows (crop_and_reindex_samples (Frame.withSample rows))).map
        (fun r => (r.1 + 139, r.2)) =
      rows.filter (fun r => decide (140 ≤ r.1) && decide (r.1 ≤ 639))
    ∧ ((frameRows (crop_and_reindex_samples (Frame.withSample rows))).all
        (fun r => decide (1 ≤ r.1) && decide (r.1 ≤ 500))) = true := by
  refine ⟨rfl, ?_, ?_⟩
  · exact map_shift_unshift (rows.filter (fun r => decide (140 ≤ r.1) && decide (r.1 ≤ 639)))
  · exact crop_rows_bounded rows

/-- C9: the artifact writes guarded by existence checks do NOT use a
temporary location and an atomic rename: every action in every
training / evaluation trace is a direct write to one of the final
paths that the existence checks themselves inspect, and no rename ever
occurs; concretely, a fresh training run writes the detector and
diagnostician artifacts directly, and a fresh evaluation writes
`metrics.json` directly. -/
theorem artifact_writes_direct_no_rename :
    (∀ dE dgE f : Bool,
      ((train_cascaded_models_actions dE dgE f).all
        (fun a => decide (a = .writeFile detectorPath ∨ a = .writeFile diagPath))) = true)
    ∧ (∀ mE fM tE : Bool,
      ((run_evaluation_actions mE fM tE).all
        (fun a => decide (a = .writeFile metricsPath))) = true)
    ∧ train_cascaded_models_actions false false false =
        [.writeFile detectorPath, .writeFile diagPath]
    ∧ run_evaluation_actions false false true = [.writeFile metricsPath] := by
  refine ⟨?_, ?_, rfl, rfl⟩ <;> decide

/-- C4 (counterexample): with a dataframe containing a single distinct
run and `test_size = 1/4` — an input the claim says must fail with
`ConfigurationError` and produce no partition — `split_by_run` raises
nothing and produces a partition (an empty train side and the whole
dataframe as test side). -/
theorem split_by_run_invalid_input_cex :
    (uniqueFirst (dfSingleRun.map runId)).length = 1
    ∧ split_by_run id dfSingleRun (1/4) = ([], dfSingleRun) := by
  have h34 : ((1 : ℚ) * (1 - 1/4)) = 3/4 := by norm_num
  have hn : (3/4 : ℚ).num = 3 := by norm_num
  have hd : (3/4 : ℚ).den = 4 := by norm_num
  have hpy : pyInt ((1 : ℚ) * (1 - 1/4)) = 0 := by
    rw [pyInt, h34, hn, hd]
    decide
  have htr : trainRunsOf id dfSingleRun (1/4) = [] := by
    have hu : uniqueFirst (dfSingleRun.map runId) = ["0_1"] := rfl
    simp only [trainRunsOf, id, hu, List.length_cons, List.length_nil, Nat.cast_one,
      Nat.cast_zero, zero_add, Nat.cast_ofNat]
    simpa [pySlice] using congrArg (pySlice ["0_1"]) hpy
  constructor
  · rfl
  · simp only [split_by_run, htr]
    decide

/-- C3 (counterexample): a post-injection transport failure is NOT
excluded from the confirmation logic.  After one post-injection
matching sample the consecutive-match counter is 1; feeding the
neutral sample substituted for a failed call (time 66 min) resets the
counter to 0, contradicting the claim that such a sample never changes
the consecutive-match counter. -/
theorem neutral_sample_resets_counter_cex :
    (stepMonitor 1 initMonitorState ⟨21, some (true, 1)⟩).diag_consecutive_count = 1
    ∧ (stepMonitor 1 (stepMonitor 1 initMonitorState ⟨21, some (true, 1)⟩)
        ⟨22, none⟩).diag_consecutive_count = 0 := by
  decide

/-- C3 (amended): a timed-out or failed inference call yields a
neutral sample (`isAnomaly = false`, `faultCode = 0`): it is recorded
in the prediction history (as the chart value 0), it never sets or
changes the onset time or the detected flag, and the session continues
(the step is a total function).  It is, however, fed to the
confirmation logic like any other sample: post-injection and while
unconfirmed it is a non-match (its fault code 0 differs from any
target fault 1–20), so it resets the consecutive-match counter to 0;
otherwise the counter is untouched. -/
theorem neutral_sample_fail_soft_behavior (target : Int) (s : MonitorState) (i : Int) :
    (stepMonitor target s ⟨i, none⟩).anomaly_time_min = s.anomaly_time_min
    ∧ (stepMonitor target s ⟨i, none⟩).anomaly_detected = s.anomaly_detected
    ∧ (stepMonitor target s ⟨i, none⟩).history_pred = s.history_pred ++ [0]
    ∧ (stepMonitor target s ⟨i, none⟩).diag_consecutive_count =
        (if INJECTION_TIME_MIN < i * TIME_STEP_MINUTES ∧ s.diagnosis_confirmed = false
         then (if (0 : Int) = target then s.diag_consecutive_count + 1 else 0)
         else s.diag_consecutive_count) := by
  simp only [stepMonitor, sampleTime, valDetector, valDiagnosis, INJECTION_TIME_MIN,
    TIME_STEP_MINUTES, PERSISTENCE_LIMIT]
  refine ⟨?_, ?_, ?_, ?_⟩ <;>
    · split_ifs <;> simp_all

/-- C6 (counterexample): on a class whose runs are first encountered
in the order 3, 1, 2 with quota 2, the code retains runs {1, 2} (the
two smallest, because `np.unique` sorts ascending), not the
first-encountered runs {3, 1} that the claim prescribes; the code
output differs from the spec-modelled first-encountered selection. -/
theorem subsample_sorted_not_first_encountered_cex :
    subsample_by_run dfRuns312 2 = [⟨0, 1, 0⟩, ⟨0, 2, 0⟩]
    ∧ downsample_spec_first_encountered dfRuns312 2 = [⟨0, 3, 0⟩, ⟨0, 1, 0⟩]
    ∧ decide (subsample_by_run dfRuns312 2 =
        downsample_spec_first_encountered dfRuns312 2) = false := by
  decide

/-- C5 (counterexample): a payload whose channel set does not match
the trained channel order — it carries all 52 trained channels plus
the extra key `extra_channel` — is NOT rejected: `predict` answers
normally, so no `SchemaError` (nor any error) is raised on this
channel-set mismatch. -/
theorem predict_accepts_superset_payload_cex :
    (sensorCols.contains "extra_channel") = false
    ∧ ((mockSensorsExtra.map Prod.fst).contains "extra_channel") = true
    ∧ predict (fun _ => 0) (fun _ => 7) mockSensorsExtra =
        .ok ⟨false, 0, "Normal Operation"⟩ := by
  refine ⟨by decide, by decide, by rfl⟩

theorem length_filter_partition {α : Type} (p : α → Bool) (l : List α) :
    (l.filter p).length + (l.filter (fun a => !p a)).length = l.length := by
  induction l with
  | nil => rfl
  | cons a as ih =>
    cases h : p a <;> simp [List.filter_cons, h] <;> omega

/-- C1: `split_by_run` assigns each distinct `unique_run_id` wholly to
the train set or wholly to the test set, for every dataframe, every
`test_size`, and every shuffle: no run id occurring among the train
rows occurs among the test rows, and a row lands in the train
(resp. test) side exactly when its own run id is (resp. is not) in the
chosen train-run prefix — assignment is per run id, never per row. -/
theorem split_by_run_run_disjointness {α : Type} (sh : List String → List String)
    (df : List (TepRecord α)) (t : ℚ) :
    (((split_by_run sh df t).1.map runId).filter
        (fun rid => decide (rid ∈ (split_by_run sh df t).2.map runId))) = []
    ∧ ∀ r : TepRecord α,
        (r ∈ (split_by_run sh df t).1 ↔ r ∈ df ∧ runId r ∈ trainRunsOf sh df t)
        ∧ (r ∈ (split_by_run sh df t).2 ↔
            r ∈ df ∧ decide (runId r ∈ trainRunsOf sh df t) = false) := by
  constructor
  · rw [List.filter_eq_nil_iff]
    intro rid hrid hcon
    simp only [split_by_run, List.mem_map, List.mem_filter,
      decide_eq_true_eq] at hrid hcon
    obtain ⟨r, ⟨_, hr⟩, hreq⟩ := hrid
    obtain ⟨r', ⟨_, hr'⟩, hr'eq⟩ := hcon
    exact hr' (hr'eq ▸ hreq ▸ hr)
  · intro r
    constructor
    · simp [split_by_run, List.mem_filter]
    · simp [split_by_run, List.mem_filter]

/-- C4 (amended): `split_by_run` performs no validation and raises no
`ConfigurationError`: even on every invalid input — `test_size`
outside (0, 1) or fewer than 2 distinct runs — it still returns a
train/test split that partitions the rows (the two sides account for
every row exactly once). -/
theorem split_by_run_total_partition {α : Type} (sh : List String → List String)
    (df : List (TepRecord α)) (t : ℚ)
    (_h : t ≤ 0 ∨ 1 ≤ t ∨ (uniqueFirst (df.map runId)).length < 2) :
    (split_by_run sh df t).1.length + (split_by_run sh df t).2.length = df.length := by
  have := length_filter_partition
    (fun r : TepRecord α => decide (runId r ∈ trainRunsOf sh df t)) df
  simpa [split_by_run, decide_not] using this

/-- Witness for C4 (amended) at the concrete single-run dataframe. -/
theorem split_by_run_total_partition_witness :
    (uniqueFirst (dfSingleRun.map runId)).length < 2
    ∧ (split_by_run id dfSingleRun (1/4)).1.length +
        (split_by_run id dfSingleRun (1/4)).2.length = dfSingleRun.length :=
  ⟨by decide,
   split_by_run_total_partition id dfSingleRun (1/4) (Or.inr (Or.inr (by decide)))⟩

theorem mem_uniqueFirstAux {α : Type} [DecidableEq α] :
    ∀ (l seen : List α) (a : α),
      a ∈ uniqueFirstAux seen l ↔ a ∈ l ∧ a ∉ seen
  | [], seen, a => by simp [uniqueFirstAux]
  | b :: bs, seen, a => by
    by_cases hb : b ∈ seen
    · rw [uniqueFirstAux, if_pos hb, mem_uniqueFirstAux bs seen a]
      constructor
      · rintro ⟨h1, h2⟩
        exact ⟨List.mem_cons_of_mem _ h1, h2⟩
      · rintro ⟨h1, h2⟩
        rcases List.mem_cons.mp h1 with rfl | h1
        · exact absurd hb h2
        · exact ⟨h1, h2⟩
    · rw [uniqueFirstAux, if_neg hb]
      constructor
      · intro h
        rcases List.mem_cons.mp h with rfl | h
        · exact ⟨List.mem_cons_self _ _, hb⟩
        · have h' := (mem_uniqueFirstAux bs (b :: seen) a).mp h
          exact ⟨List.mem_cons_of_mem _ h'.1,
            fun hs => h'.2 (List.mem_cons_of_mem _ hs)⟩
      · rintro ⟨h1, h2⟩
        rcases List.mem_cons.mp h1 with rfl | h1
        · exact List.mem_cons_self _ _
        · by_cases hab : a = b
          · subst hab
            exact List.mem_cons_self _ _
          · refine List.mem_cons_of_mem _
              ((mem_uniqueFirstAux bs (b :: seen) a).mpr ⟨h1, ?_⟩)
            simp [hab, h2]

theorem mem_uniqueFirst {α : Type} [DecidableEq α] (l : List α) (a : α) :
    a ∈ uniqueFirst l ↔ a ∈ l := by
  simp [uniqueFirst, mem_uniqueFirstAux]

theorem nodup_uniqueFirstAux {α : Type} [DecidableEq α] :
    ∀ (l seen : List α), (uniqueFirstAux seen l).Nodup
  | [], _ => List.nodup_nil
  | b :: bs, seen => by
    by_cases hb : b ∈ seen
    · rw [uniqueFirstAux, if_pos hb]
      exact nodup_uniqueFirstAux bs seen
    · rw [uniqueFirstAux, if_neg hb]
      refine List.Nodup.cons ?_ (nodup_uniqueFirstAux bs (b :: seen))
      intro hmem
      exact ((mem_uniqueFirstAux bs (b :: seen) b).mp hmem).2 (List.mem_cons_self _ _)

theorem nodup_uniqueFirst {α : Type} [DecidableEq α] (l : List α) :
    (uniqueFirst l).Nodup :=
  nodup_uniqueFirstAux l []

theorem mem_insertSorted : ∀ (l : List Int) (a b : Int),
    b ∈ insertSorted a l ↔ b = a ∨ b ∈ l
  | [], a, b => by simp [insertSorted]
  | c :: cs, a, b => by
    rw [insertSorted]
    split_ifs with h1 h2
    · simp
    · subst h2
      simp only [List.mem_cons]
      tauto
    · simp only [List.mem_cons, mem_insertSorted cs a b]
      tauto

theorem mem_sortedUnique (l : List Int) (a : Int) :
    a ∈ sortedUnique l ↔ a ∈ l := by
  induction l with
  | nil => simp [sortedUnique]
  | cons b bs ih =>
    have hstep : sortedUnique (b :: bs) = insertSorted b (sortedUnique bs) := rfl
    rw [hstep, mem_insertSorted, ih, List.mem_cons]

/-- C6 (amended): `_subsample_by_run` with quota `n` retains per class
exactly the rows whose run id is among the first `n` distinct run ids
of that class in **ascending sorted order** (`np.unique`), not in
first-encountered order; hence it never retains more than `n` distinct
run ids per class, and it is a no-op when every class has at most `n`
distinct runs.  The function is pure, so repeated calls on the same
input ordering are identical by construction (there is no random draw
at all in this step). -/
theorem subsample_by_run_quota {α : Type} (df : List (TepRecord α)) (n : Nat) :
    (∀ r : TepRecord α, r ∈ subsample_by_run df n ↔
        r ∈ df ∧ r.simulationRun ∈ (sortedUnique (runsOfClass df r.faultNumber)).take n)
    ∧ (∀ c : Int,
        (uniqueFirst (((subsample_by_run df n).filter
          (fun r => decide (r.faultNumber = c))).map TepRecord.simulationRun)).length ≤ n)
    ∧ ((df.all (fun r =>
          decide ((sortedUnique (runsOfClass df r.faultNumber)).length ≤ n))) = true →
        subsample_by_run df n = df) := by
  refine ⟨?_, ?_, ?_⟩
  · intro r
    simp [subsample_by_run, List.mem_filter]
  · intro c
    have hnd : (uniqueFirst (((subsample_by_run df n).filter
        (fun r => decide (r.faultNumber = c))).map TepRecord.simulationRun)).Nodup :=
      nodup_uniqueFirst _
    have hsub : (uniqueFirst (((subsample_by_run df n).filter
        (fun r => decide (r.faultNumber = c))).map TepRecord.simulationRun)) ⊆
        (sortedUnique (runsOfClass df c)).take n := by
      intro a ha
      have ha' := (mem_uniqueFirst _ a).mp ha
      obtain ⟨r, hr, rfl⟩ := List.mem_map.mp ha'
      have hr1 := List.mem_filter.mp hr
      have hc : r.faultNumber = c := by simpa using hr1.2
      have hr2 := List.mem_filter.mp hr1.1
      have hmem : r.simulationRun ∈
          (sortedUnique (runsOfClass df r.faultNumber)).take n := by
        simpa using hr2.2
      rwa [hc] at hmem
    calc (uniqueFirst (((subsample_by_run df n).filter
          (fun r => decide (r.faultNumber = c))).map TepRecord.simulationRun)).length
        ≤ ((sortedUnique (runsOfClass df c)).take n).length :=
          (hnd.subperm hsub).length_le
      _ ≤ n := by simp [List.length_take]
  · intro hall
    apply List.filter_eq_self.mpr
    intro r hr
    have h1 := List.all_eq_true.mp hall r hr
    have hlen : (sortedUnique (runsOfClass df r.faultNumber)).length ≤ n := by
      simpa using h1
    rw [List.take_of_length_le hlen]
    have : r.simulationRun ∈ runsOfClass df r.faultNumber := by
      simp only [runsOfClass, List.mem_map]
      exact ⟨r, List.mem_filter.mpr ⟨hr, by simp⟩, rfl⟩
    simpa [mem_sortedUnique]

/-- Witness for C6 (amended) at a concrete two-run dataframe where the
quota is not binding (the no-op branch). -/
theorem subsample_by_run_quota_witness :
    (dfTwoRuns.all (fun r =>
      decide ((sortedUnique (runsOfClass dfTwoRuns r.faultNumber)).length ≤ 2))) = true
    ∧ subsample_by_run dfTwoRuns 2 = dfTwoRuns :=
  ⟨by decide, (subsample_by_run_quota dfTwoRuns 2).2.2 (by decide)⟩

/-- C2: when the detector reports normal (output 0), the endpoint
answers `(false, 0, "Normal Operation")` and the result does not
depend on the diagnostician at all (it is not invoked: the same
response results for every diagnostician); when the detector reports
anomalous, the diagnostician is invoked on the same selected vector
and the result is `(true, diagnosedClass)`. -/
theorem predict_cascade_stage_order (det diag diag2 : List Int → Int)
    (sensors : List (String × Int)) (v : List Int)
    (h : selectCols sensors sensorCols = .ok v) :
    (det v = 0 →
      predict det diag sensors = .ok ⟨false, 0, "Normal Operation"⟩
      ∧ predict det diag sensors = predict det diag2 sensors)
    ∧ (det v ≠ 0 →
      predict det diag sensors =
        .ok ⟨true, diag v, "Anomalous state detected: Fault " ++ toString (diag v)⟩) := by
  constructor
  · intro hd
    constructor <;> simp [predict, h, hd]
  · intro hd
    simp [predict, h, hd]

/-- Witness for C2 at a concrete full payload with an
always-normal detector and two different diagnosticians. -/
theorem predict_cascade_stage_order_witness :
    predict (fun _ => 0) (fun _ => 7) mockSensors = .ok ⟨false, 0, "Normal Operation"⟩
    ∧ predict (fun _ => 0) (fun _ => 7) mockSensors =
        predict (fun _ => 0) (fun _ => 9) mockSensors :=
  (predict_cascade_stage_order (fun _ => 0) (fun _ => 7) (fun _ => 9) mockSensors
    (List.replicate 52 0) (by rfl)).1 rfl

theorem selectCols_ok_eq (sensors : List (String × Int)) :
    ∀ cols : List String,
      exceptOk (selectCols sensors cols) =
        cols.all (fun c => (lookupChannel sensors c).isSome)
  | [] => rfl
  | c :: cs => by
    have ih := selectCols_ok_eq sensors cs
    cases hc : lookupChannel sensors c with
    | none => simp [selectCols, hc, exceptOk]
    | some v =>
      cases hs : selectCols sensors cs with
      | error e =>
        rw [hs] at ih
        simp [selectCols, hc, hs, exceptOk, ← ih]
      | ok vs =>
        rw [hs] at ih
        simp [selectCols, hc, hs, exceptOk, ← ih]

theorem exceptOk_predict (det diag : List Int → Int)
    (sensors : List (String × Int)) :
    exceptOk (predict det diag sensors) = exceptOk (selectCols sensors sensorCols) := by
  cases hs : selectCols sensors sensorCols with
  | error e => simp [predict, hs, exceptOk]
  | ok v =>
    simp only [predict, hs]
    split <;> rfl

/-- C5 (amended): the endpoint has no typed `SchemaError`; it fails —
with the generic internal inference failure produced by the catch-all
handler (HTTP 500) — exactly when some trained channel is missing from
the payload (the failed column selection happens before either model
is invoked, so there is no silent misclassification on missing
channels), while extra channels are silently ignored, not rejected. -/
theorem predict_failure_iff_missing_channel (det diag : List Int → Int)
    (sensors : List (String × Int)) :
    exceptOk (predict det diag sensors) =
      sensorCols.all (fun c => (lookupChannel sensors c).isSome)
    ∧ (predict det diag sensors = .error .internalFailure ↔
        sensorCols.all (fun c => (lookupChannel sensors c).isSome) = false) := by
  have hkey : exceptOk (predict det diag sensors) =
      sensorCols.all (fun c => (lookupChannel sensors c).isSome) := by
    rw [exceptOk_predict, selectCols_ok_eq]
  refine ⟨hkey, ?_, ?_⟩
  · intro he
    rw [← hkey, he]
    rfl
  · intro hall
    rw [← hkey] at hall
    cases hp : predict det diag sensors with
    | ok r =>
      rw [hp] at hall
      simp [exceptOk] at hall
    | error e =>
      cases e
      rfl

theorem step_detected_eq (target : Int) (s : MonitorState) (x : StreamSample) :
    (stepMonitor target s x).anomaly_detected = (s.anomaly_detected || onsetSample x) := by
  obtain ⟨i, res⟩ := x
  obtain ⟨ad, atm, dc, dtm, cnt, hist⟩ := s
  cases ad <;> cases dc <;> rcases res with _ | ⟨_ | _, fc⟩ <;>
    simp only [stepMonitor, onsetSample, valDetector, valDiagnosis, sampleTime,
      INJECTION_TIME_MIN, TIME_STEP_MINUTES, PERSISTENCE_LIMIT] <;>
    split_ifs <;> try (first | rfl | omega | tauto | simp_all)
  all_goals omega

theorem step_onset_time_eq (target : Int) (s : MonitorState) (x : StreamSample) :
    (stepMonitor target s x).anomaly_time_min =
      if s.anomaly_detected = false ∧ onsetSample x = true
      then some (sampleTime x) else s.anomaly_time_min := by
  obtain ⟨i, res⟩ := x
  obtain ⟨ad, atm, dc, dtm, cnt, hist⟩ := s
  cases ad <;> cases dc <;> rcases res with _ | ⟨_ | _, fc⟩ <;>
    simp only [stepMonitor, onsetSample, valDetector, valDiagnosis, sampleTime,
      INJECTION_TIME_MIN, TIME_STEP_MINUTES, PERSISTENCE_LIMIT] <;>
    split_ifs <;> try (first | rfl | omega | tauto | simp_all)
  all_goals omega

theorem step_count_eq (target : Int) (s : MonitorState) (x : StreamSample) :
    (stepMonitor target s x).diag_consecutive_count =
      if INJECTION_TIME_MIN < sampleTime x ∧ s.diagnosis_confirmed = false then
        (if valDiagnosis x = target then s.diag_consecutive_count + 1 else 0)
      else s.diag_consecutive_count := by
  obtain ⟨i, res⟩ := x
  obtain ⟨ad, atm, dc, dtm, cnt, hist⟩ := s
  cases ad <;> cases dc <;> rcases res with _ | ⟨_ | _, fc⟩ <;>
    simp only [stepMonitor, onsetSample, valDetector, valDiagnosis, sampleTime,
      INJECTION_TIME_MIN, TIME_STEP_MINUTES, PERSISTENCE_LIMIT] <;>
    split_ifs <;> try (first | rfl | omega | tauto | simp_all)
  all_goals omega

theorem step_confirmed_iff (target : Int) (s : MonitorState) (x : StreamSample) :
    (stepMonitor target s x).diagnosis_confirmed = true ↔
      (s.diagnosis_confirmed = true ∨
        (INJECTION_TIME_MIN < sampleTime x ∧ PERSISTENCE_LIMIT ≤
          (if valDiagnosis x = target then s.diag_consecutive_count + 1 else 0))) := by
  obtain ⟨i, res⟩ := x
  obtain ⟨ad, atm, dc, dtm, cnt, hist⟩ := s
  cases ad <;> cases dc <;> rcases res with _ | ⟨_ | _, fc⟩ <;>
    simp only [stepMonitor, onsetSample, valDetector, valDiagnosis, sampleTime,
      INJECTION_TIME_MIN, TIME_STEP_MINUTES, PERSISTENCE_LIMIT] <;>
    split_ifs <;> try (first | rfl | omega | tauto | simp_all)
  all_goals omega

theorem step_confirm_time_eq (target : Int) (s : MonitorState) (x : StreamSample) :
    (stepMonitor target s x).diagnosis_time_min =
      if INJECTION_TIME_MIN < sampleTime x ∧ s.diagnosis_confirmed = false ∧
          PERSISTENCE_LIMIT ≤
            (if valDiagnosis x = target then s.diag_consecutive_count + 1 else 0)
      then some (sampleTime x) else s.diagnosis_time_min := by
  obtain ⟨i, res⟩ := x
  obtain ⟨ad, atm, dc, dtm, cnt, hist⟩ := s
  cases ad <;> cases dc <;> rcases res with _ | ⟨_ | _, fc⟩ <;>
    simp only [stepMonitor, onsetSample, valDetector, valDiagnosis, sampleTime,
      INJECTION_TIME_MIN, TIME_STEP_MINUTES, PERSISTENCE_LIMIT] <;>
    split_ifs <;> try (first | rfl | omega | tauto | simp_all)
  all_goals omega

/-- C7: the persistence debounce.  The first conjunct states the exact
counter dynamics of one loop iteration: post-injection and while
unconfirmed, the consecutive-match counter is incremented on a
matching diagnosis and reset to 0 otherwise, and is untouched in every
other situation; the second states that confirmation fires exactly
when the updated counter reaches `PERSISTENCE_LIMIT`, at which point
the confirmation time is set to the elapsed time of that sample.  The
remaining conjuncts run the claim scenario with threshold 2: feeding
the post-injection sequence [match, no-match, match, match] leaves the
session unconfirmed after the first match (counter 1, reset to 0 at
the no-match) and confirms only on the second consecutive match — the
fourth sample, time 72 min. -/
theorem monitor_persistence_debounce :
    (∀ (target : Int) (s : MonitorState) (x : StreamSample),
      ((stepMonitor target s x).diag_consecutive_count =
        if INJECTION_TIME_MIN < sampleTime x ∧ s.diagnosis_confirmed = false then
          (if valDiagnosis x = target then s.diag_consecutive_count + 1 else 0)
        else s.diag_consecutive_count)
      ∧ ((stepMonitor target s x).diagnosis_confirmed = true ↔
          (s.diagnosis_confirmed = true ∨
            (INJECTION_TIME_MIN < sampleTime x ∧ PERSISTENCE_LIMIT ≤
              (if valDiagnosis x = target then s.diag_consecutive_count + 1 else 0))))
      ∧ ((stepMonitor target s x).diagnosis_time_min =
          if INJECTION_TIME_MIN < sampleTime x ∧ s.diagnosis_confirmed = false ∧
              PERSISTENCE_LIMIT ≤
                (if valDiagnosis x = target then s.diag_consecutive_count + 1 else 0)
          then some (sampleTime x) else s.diagnosis_time_min))
    ∧ (runMonitor 1 initMonitorState (xsDebounce.take 1)).diag_consecutive_count = 1
    ∧ (runMonitor 1 initMonitorState (xsDebounce.take 1)).diagnosis_confirmed = false
    ∧ (runMonitor 1 initMonitorState (xsDebounce.take 2)).diag_consecutive_count = 0
    ∧ (runMonitor 1 initMonitorState (xsDebounce.take 3)).diag_consecutive_count = 1
    ∧ (runMonitor 1 initMonitorState (xsDebounce.take 3)).diagnosis_confirmed = false
    ∧ (runMonitor 1 initMonitorState xsDebounce).diagnosis_confirmed = true
    ∧ (runMonitor 1 initMonitorState xsDebounce).diagnosis_time_min = some 72 := by
  refine ⟨fun target s x =>
    ⟨step_count_eq target s x, step_confirmed_iff target s x,
     step_confirm_time_eq target s x⟩, ?_, ?_, ?_, ?_, ?_, ?_, ?_⟩ <;> decide

theorem run_after_detected (target : Int) :
    ∀ (xs : List StreamSample) (s : MonitorState),
      s.anomaly_detected = true →
      (runMonitor target s xs).anomaly_time_min = s.anomaly_time_min
      ∧ (runMonitor target s xs).anomaly_detected = true
  | [], s, h => ⟨rfl, h⟩
  | x :: xs, s, h => by
    have hd : (stepMonitor target s x).anomaly_detected = true := by
      rw [step_detected_eq]
      simp [h]
    have ht : (stepMonitor target s x).anomaly_time_min = s.anomaly_time_min := by
      rw [step_onset_time_eq]
      simp [h]
    have hrest := run_after_detected target xs (stepMonitor target s x) hd
    simp only [runMonitor, List.foldl_cons] at hrest ⊢
    exact ⟨ht ▸ hrest.1, hrest.2⟩

theorem run_onset_char (target : Int) :
    ∀ (xs : List StreamSample) (s : MonitorState),
      s.anomaly_detected = false →
      ((runMonitor target s xs).anomaly_time_min =
        (match xs.find? onsetSample with
         | some x => some (sampleTime x)
         | none => s.anomaly_time_min))
      ∧ ((runMonitor target s xs).anomaly_detected = (xs.find? onsetSample).isSome)
  | [], s, h => by
    simp [runMonitor, h]
  | x :: xs, s, h => by
    cases hx : onsetSample x with
    | true =>
      have hd : (stepMonitor target s x).anomaly_detected = true := by
        rw [step_detected_eq]
        simp [hx]
      have ht : (stepMonitor target s x).anomaly_time_min = some (sampleTime x) := by
        rw [step_onset_time_eq]
        simp [h, hx]
      have hrest := run_after_detected target xs (stepMonitor target s x) hd
      rw [List.find?_cons_of_pos _ hx]
      simp only [runMonitor, List.foldl_cons] at hrest ⊢
      exact ⟨by rw [hrest.1, ht], by simp [hrest.2]⟩
    | false =>
      have hd : (stepMonitor target s x).anomaly_detected = false := by
        rw [step_detected_eq]
        simp [h, hx]
      have ht : (stepMonitor target s x).anomaly_time_min = s.anomaly_time_min := by
        rw [step_onset_time_eq]
        simp [hx]
      have ih := run_onset_char target xs (stepMonitor target s x) hd
      rw [List.find?_cons_of_neg _ (by simp [hx])]
      simp only [runMonitor, List.foldl_cons] at ih ⊢
      cases hf : xs.find? onsetSample with
      | some y =>
        rw [hf] at ih
        exact ⟨ih.1, by simp [ih.2, hf]⟩
      | none =>
        rw [hf] at ih
        exact ⟨by rw [ih.1, ht], by simp [ih.2, hf]⟩

/-- C8: in a whole monitoring session, the onset time equals the
elapsed time of the **first** fed sample that is post-injection
(`elapsedTime > injectionTime`) and anomalous, and the detected flag
is set exactly when such a sample exists: later anomalous samples and
pre-injection samples cannot change it (the fold result depends only
on the first qualifying sample), and once set it never changes for the
remainder of the session. -/
theorem monitor_onset_once (target : Int) (xs : List StreamSample) :
    (runMonitor target initMonitorState xs).anomaly_time_min =
      Option.map sampleTime (xs.find? onsetSample)
    ∧ (runMonitor target initMonitorState xs).anomaly_detected =
      (xs.find? onsetSample).isSome := by
  have h := run_onset_char target xs initMonitorState rfl
  cases hf : xs.find? onsetSample with
  | some y =>
    rw [hf] at h
    exact ⟨h.1, h.2⟩
  | none =>
    rw [hf] at h
    exact ⟨h.1, h.2⟩

end TepDemo
